import Mathlib

/-!
Verification of the WHPX platform adapter (`src/modules/whpx/src/whpx_platform.cpp`)
of the virt86 repository, as a shallow embedding in Lean 4.

The native Windows Hypervisor Platform API (`WHvGetCapability`, the
`WHV_CAPABILITY` union, `WhpxDispatch`) is an external collaborator: each
capability query is modelled as an environment-supplied result consisting of an
`HRESULT` and the full contents of the `WHV_CAPABILITY` union after the call.
Since `WHV_CAPABILITY` is a C union, the source's single local variable `cap`
is wholly overwritten by every query; the model captures this by threading the
latest query's returned record, all of whose views are supplied by the
environment.
-/

namespace Virt86Whpx

/-- Initialization status of a `Platform` (from the spec's data model:
OK / Unavailable / Failed, plus the pre-construction `Uninitialized`). -/
inductive PlatformInitStatus
  | Uninitialized
  | OK
  | Unavailable
  | Failed
deriving DecidableEq, Repr

/-- View of the `WHV_CAPABILITY` union as extended-VM-exit flags, the six
flags read by the constructor. -/
structure WHV_EXTENDED_VM_EXITS where
  X64CpuidExit : Bool
  X64MsrExit : Bool
  ExceptionExit : Bool
  X64RdtscExit : Bool
  X64ApicSmiExit : Bool
  HypercallExit : Bool
deriving DecidableEq, Repr

/-- View of the `WHV_CAPABILITY` union as the feature flags read by the
constructor (`features.DirtyPageTracking`, `features.PartialUnmap`). -/
structure WHV_CAPABILITY_FEATURES where
  DirtyPageTracking : Bool
  PartialUnmap : Bool
deriving DecidableEq, Repr

/-- The `WHV_CAPABILITY` union, modelled as a record of its views: a
`WHvGetCapability` call writes the whole union, and the record holds the value
every view would read back afterwards. -/
structure WHV_CAPABILITY where
  HypervisorPresent : Bool
  Features : WHV_CAPABILITY_FEATURES
  ExtendedVmExits : WHV_EXTENDED_VM_EXITS
  ExceptionExitBitmap : Nat
deriving DecidableEq, Repr

/-- Result of one `WHvGetCapability` call: the returned `HRESULT` (`S_OK = 0`)
and the contents of the capability union after the call. -/
structure CapabilityQueryResult where
  hr : Int
  cap : WHV_CAPABILITY
deriving DecidableEq, Repr

/-- Modelled from the spec: `VersionInfo` (defined in virt86 headers missing
from src/) — "derive backend version from a native version struct compared
against known-version thresholds"; a four-component version number. -/
structure VersionInfo where
  major : Nat
  minor : Nat
  build : Nat
  revision : Nat
deriving DecidableEq, Repr

/-- Modelled from the spec: the `operator>=` comparison of `VersionInfo`
(missing from src/), as the standard lexicographic order on
(major, minor, build, revision). -/
def VersionInfo.ge (a b : VersionInfo) : Bool :=
  if a.major = b.major then
    if a.minor = b.minor then
      if a.build = b.build then
        decide (a.revision ≥ b.revision)
      else decide (a.build > b.build)
    else decide (a.minor > b.minor)
  else decide (a.major > b.major)

/-- Guest-physical-address limits published in `Features`
(`maxBits`, `maxAddress`, `mask`). -/
structure GuestPhysicalAddressInfo where
  maxBits : Nat
  maxAddress : Nat
  mask : Nat
deriving DecidableEq, Repr

/-- The extended control registers the WHPX adapter can publish
(`CR8 | MXCSRMask`, plus `XCR0` when version-gated in). -/
structure ExtendedControlRegisterSet where
  CR8 : Bool
  MXCSRMask : Bool
  XCR0 : Bool
deriving DecidableEq, Repr

/-- The set of extended VM exits published in `Features.extendedVMExits`
(bitset per the spec: CPUID, MSR access, exception, TSC access, APIC SMI,
hypercall). -/
structure ExtendedVMExitSet where
  CPUID : Bool
  MSRAccess : Bool
  Exception : Bool
  TSCAccess : Bool
  APICSMI : Bool
  Hypercall : Bool
deriving DecidableEq, Repr

/-- Modelled from the spec: the `Features` snapshot (declared in
`platform.hpp`, missing from src/) with the fields the WHPX constructor
assigns. `floatingPointExtensions` and `exceptionExits` are bitmask-valued
and kept abstract as `Nat`. -/
structure Features where
  floatingPointExtensions : Nat
  extendedControlRegisters : ExtendedControlRegisterSet
  maxProcessorsPerVM : Nat
  maxProcessorsGlobal : Nat
  guestPhysicalAddress : GuestPhysicalAddressInfo
  unrestrictedGuest : Bool
  extendedPageTables : Bool
  largeMemoryAllocation : Bool
  customCPUIDs : Bool
  dirtyPageTracking : Bool
  partialDirtyBitmap : Bool
  partialUnmapping : Bool
  memoryAliasing : Bool
  memoryUnmapping : Bool
  extendedVMExits : ExtendedVMExitSet
  exceptionExits : Nat
deriving DecidableEq, Repr

/-- The empty extended-VM-exit set. -/
def emptyExtendedVMExitSet : ExtendedVMExitSet :=
  ⟨false, false, false, false, false, false⟩

/-- Modelled from the spec: the default (all-empty) `Features` value a freshly
constructed `Platform` holds before probing populates it. -/
def Features.empty : Features :=
  ⟨0, ⟨false, false, false⟩, 0, 0, ⟨0, 0, 0⟩,
   false, false, false, false, false, false, false, false, false,
   emptyExtendedVMExitSet, 0⟩

/-- Modelled from the spec: the host-derived values (`HostInfo`, from
`host_info.hpp`, missing from src/) the constructor copies into `Features`. -/
structure HostInfoModel where
  floatingPointExtensions : Nat
  gpa : GuestPhysicalAddressInfo
deriving DecidableEq, Repr

/-- The environment a `WhpxPlatform` constructor run observes: whether the
static dispatch object allocation failed, the outcome of `Load()`, the WHPX
version, the host info, and the result of each possible `WHvGetCapability`
query. -/
structure WhpxEnv where
  dispatchNull : Bool
  loadOk : Bool
  whpxVersion : VersionInfo
  hostInfo : HostInfoModel
  capHypervisorPresent : CapabilityQueryResult
  capFeatures : CapabilityQueryResult
  capExtendedVmExits : CapabilityQueryResult
  capExceptionExitBitmap : CapabilityQueryResult
deriving DecidableEq, Repr

/-- The capability codes the constructor can pass to `WHvGetCapability`. -/
inductive CapabilityCode
  | HypervisorPresent
  | Features
  | ExtendedVmExits
  | ExceptionExitBitmap
deriving DecidableEq, Repr

/-- Observable outcome of one `WhpxPlatform` constructor run: the final
`m_initStatus`, the final `m_features`, every assignment made to
`m_initStatus` in order, every `WHvGetCapability` query issued in order,
whether control reached the feature-population step (line 84), and whether
the constructor body ran to its end rather than returning early. -/
structure CtorResult where
  initStatus : PlatformInitStatus
  features : Features
  statusAssignments : List PlatformInitStatus
  queries : List CapabilityCode
  reachedFeaturePopulation : Bool
  completedProbing : Bool
deriving DecidableEq, Repr

namespace WhpxPlatform

/-- Shallow embedding of `WhpxPlatform::WhpxPlatform()` (whpx_platform.cpp
lines 46–134). The local `cap` union is overwritten by each query, so after
the exception-exit-bitmap query (line 119) the remaining flag checks
(lines 125–133) read the views of that query's result. -/
def construct (env : WhpxEnv) : CtorResult :=
  if env.dispatchNull then
    ⟨.Failed, Features.empty, [.Failed], [], false, false⟩
  else if env.loadOk = false then
    ⟨.Unavailable, Features.empty, [.Unavailable], [], false, false⟩
  else
    let hr1 := env.capHypervisorPresent.hr
    let cap1 := env.capHypervisorPresent.cap
    let tr1 : List PlatformInitStatus := if (0 : Int) ≠ hr1 then [.Failed] else []
    if cap1.HypervisorPresent = false then
      ⟨.Unavailable, Features.empty, tr1 ++ [.Unavailable], [.HypervisorPresent],
       false, false⟩
    else
      let hr2 := env.capFeatures.hr
      let cap2 := env.capFeatures.cap
      let tr2 := tr1 ++ (if (0 : Int) ≠ hr2 then [.Failed] else [])
      let features := cap2.Features
      let xcr0 := VersionInfo.ge env.whpxVersion ⟨10, 0, 17763, 0⟩
      let f1 : Features :=
        ⟨env.hostInfo.floatingPointExtensions,
         ⟨true, true, xcr0⟩,
         64, 128,
         env.hostInfo.gpa,
         true, true, true, true,
         features.DirtyPageTracking, true, features.PartialUnmap, true, true,
         emptyExtendedVMExitSet, 0⟩
      let tr3 := tr2 ++ [.OK]
      let hr3 := env.capExtendedVmExits.hr
      let cap3 := env.capExtendedVmExits.cap
      let tr4 := tr3 ++ (if (0 : Int) ≠ hr3 then [.Failed] else [])
      let st4 : PlatformInitStatus := if (0 : Int) ≠ hr3 then .Failed else .OK
      let e1 := if cap3.ExtendedVmExits.X64CpuidExit then
        { emptyExtendedVMExitSet with CPUID := true } else emptyExtendedVMExitSet
      let e2 := if cap3.ExtendedVmExits.X64MsrExit then
        { e1 with MSRAccess := true } else e1
      if cap3.ExtendedVmExits.ExceptionExit then
        let e3 := { e2 with Exception := true }
        let hr4 := env.capExceptionExitBitmap.hr
        let cap4 := env.capExceptionExitBitmap.cap
        let tr5 := tr4 ++ (if (0 : Int) ≠ hr4 then [.Failed] else [])
        let st5 : PlatformInitStatus := if (0 : Int) ≠ hr4 then .Failed else st4
        let e4 := if cap4.ExtendedVmExits.X64RdtscExit then
          { e3 with TSCAccess := true } else e3
        let e5 := if cap4.ExtendedVmExits.X64ApicSmiExit then
          { e4 with APICSMI := true } else e4
        let e6 := if cap4.ExtendedVmExits.HypercallExit then
          { e5 with Hypercall := true } else e5
        ⟨st5,
         { f1 with extendedVMExits := e6,
                   exceptionExits := cap4.ExceptionExitBitmap },
         tr5,
         [.HypervisorPresent, .Features, .ExtendedVmExits, .ExceptionExitBitmap],
         true, true⟩
      else
        let e4 := if cap3.ExtendedVmExits.X64RdtscExit then
          { e2 with TSCAccess := true } else e2
        let e5 := if cap3.ExtendedVmExits.X64ApicSmiExit then
          { e4 with APICSMI := true } else e4
        let e6 := if cap3.ExtendedVmExits.HypercallExit then
          { e5 with Hypercall := true } else e5
        ⟨st4,
         { f1 with extendedVMExits := e6 },
         tr4,
         [.HypervisorPresent, .Features, .ExtendedVmExits],
         true, true⟩

end WhpxPlatform

/-- The two externally observable actions of `WhpxPlatform::~WhpxPlatform()`:
`DestroyVMs()` and `delete s_dispatch`. -/
inductive DtorEvent
  | DestroyVMs
  | ReleaseDispatch
deriving DecidableEq, Repr

/-- Shallow embedding of `WhpxPlatform::~WhpxPlatform()` (whpx_platform.cpp
lines 136–141): the ordered list of actions the destructor performs given the
current `m_initStatus`. -/
def WhpxPlatform.destructorEvents (status : PlatformInitStatus) : List DtorEvent :=
  (if status = .OK then [DtorEvent.DestroyVMs] else []) ++ [DtorEvent.ReleaseDispatch]

/-- Modelled from the spec: `VMSpecifications` (missing from src/) — processor
count and guest memory size requested by the caller. -/
structure VMSpecifications where
  numProcessors : Nat
  ramSize : Nat
deriving DecidableEq, Repr

/-- Modelled from the spec: the `WhpxVirtualMachine` object allocated by
`CreateVMImpl` (whpx_vm.hpp/cpp are missing from src/), identified by the
specifications it was constructed with; its two-phase `Initialize()` outcome
is supplied as an oracle to `CreateVMImpl`. -/
structure WhpxVirtualMachineModel where
  specifications : VMSpecifications
deriving DecidableEq, Repr

namespace WhpxPlatform

/-- Shallow embedding of `WhpxPlatform::CreateVMImpl` (whpx_platform.cpp
lines 143–149): allocate the VM, call `Initialize()` (outcome `initializeOk`),
return `none` on failure and the VM on success. -/
def CreateVMImpl (specifications : VMSpecifications) (initializeOk : Bool) :
    Option WhpxVirtualMachineModel :=
  let vm : WhpxVirtualMachineModel := ⟨specifications⟩
  if initializeOk = false then
    none
  else
    some vm

end WhpxPlatform

/-- A capability union value with every flag clear except `HypervisorPresent`,
and bitmap 0. -/
def capPresentOnly : WHV_CAPABILITY :=
  ⟨true, ⟨false, false⟩, ⟨false, false, false, false, false, false⟩, 0⟩

/-- A capability union value with all views zero. -/
def capAllZero : WHV_CAPABILITY :=
  ⟨false, ⟨false, false⟩, ⟨false, false, false, false, false, false⟩, 0⟩

/-- An environment in which every step succeeds: dispatch allocated, `Load()`
succeeds, every query returns `S_OK`, the hypervisor is present, and no
extended exits are offered. -/
def envAllOk : WhpxEnv :=
  ⟨false, true, ⟨10, 0, 17763, 0⟩, ⟨3, ⟨36, 68719476735, 68719476735⟩⟩,
   ⟨0, capPresentOnly⟩, ⟨0, capPresentOnly⟩, ⟨0, capPresentOnly⟩,
   ⟨0, capPresentOnly⟩⟩

/-- `envAllOk` except the features capability query fails with `E_FAIL`-like
`hr = 1`. -/
def envFeaturesQueryFails : WhpxEnv :=
  { envAllOk with capFeatures := ⟨1, capPresentOnly⟩ }

/-- `envAllOk` except the extended-VM-exits capability query fails. -/
def envExtendedExitsQueryFails : WhpxEnv :=
  { envAllOk with capExtendedVmExits := ⟨1, capPresentOnly⟩ }

/-- `envAllOk` except `Load()` fails. -/
def envLoadFails : WhpxEnv :=
  { envAllOk with loadOk := false }

/-- `envAllOk` except the extended-exits capability reports exception exits
supported, and the subsequent exception-bitmap query returns bitmap 42. -/
def envExceptionExits : WhpxEnv :=
  { envAllOk with
    capExtendedVmExits :=
      ⟨0, ⟨true, ⟨false, false⟩, ⟨false, false, true, false, false, false⟩, 0⟩⟩,
    capExceptionExitBitmap :=
      ⟨0, ⟨true, ⟨false, false⟩, ⟨false, false, false, false, false, false⟩, 42⟩⟩ }

/-- `envAllOk` except the extended-exits capability reports both the exception
exit and the TSC-access, APIC-SMI and hypercall exits supported, while the
exception-bitmap query returns a union whose contents are all zero. -/
def envExitFlagsThenClobber : WhpxEnv :=
  { envAllOk with
    capExtendedVmExits :=
      ⟨0, ⟨true, ⟨false, false⟩, ⟨false, false, true, true, true, true⟩, 0⟩⟩,
    capExceptionExitBitmap := ⟨0, capAllZero⟩ }

/-- The property claim C2 asserts of the constructor's status-assignment
trace: the status is never assigned `Uninitialized`, and once assigned some
value every later assignment equals it. -/
def terminalOnceSet : List PlatformInitStatus → Bool
  | [] => true
  | s :: rest =>
      decide (s ≠ PlatformInitStatus.Uninitialized) && rest.all (fun t => t == s)

set_option maxHeartbeats 1000000

/-- C1: the claim says any failed capability query leaves the constructor's
final init status `Failed`. The code violates this: when the features
capability query fails (`hr ≠ S_OK`) but the remaining queries succeed, line
103 of whpx_platform.cpp unconditionally assigns `OK` after the failure
assigned `Failed`, so probing indeed continues through all remaining queries
but the constructor ends with status `OK`, not `Failed`. -/
theorem c1_features_query_failure_final_status_ok :
    envFeaturesQueryFails.capFeatures.hr ≠ 0 ∧
    (WhpxPlatform.construct envFeaturesQueryFails).queries =
      [CapabilityCode.HypervisorPresent, CapabilityCode.Features,
       CapabilityCode.ExtendedVmExits] ∧
    (WhpxPlatform.construct envFeaturesQueryFails).initStatus =
      PlatformInitStatus.OK ∧
    (WhpxPlatform.construct envFeaturesQueryFails).initStatus ≠
      PlatformInitStatus.Failed := by
  decide

/-- C2 counterexample: in a run where every step succeeds except the
extended-VM-exits capability query, the constructor assigns `OK` to the init
status (line 103) and afterwards assigns `Failed` (line 108), so the status
does change after having been set to one of OK/Unavailable/Failed: the
claimed once-set-terminal property is false of this run. -/
theorem c2_status_change_counterexample :
    (WhpxPlatform.construct envExtendedExitsQueryFails).statusAssignments =
      [PlatformInitStatus.OK, PlatformInitStatus.Failed] ∧
    terminalOnceSet
      (WhpxPlatform.construct envExtendedExitsQueryFails).statusAssignments =
      false := by
  decide

/-- C2 amended: during a constructor run the init status may be reassigned
among OK, Unavailable and Failed as best-effort probing proceeds, but it is
never set back to `Uninitialized`, and the final status is never
`Uninitialized`. -/
theorem c2_no_reset_to_uninitialized (env : WhpxEnv) :
    PlatformInitStatus.Uninitialized ∉
      (WhpxPlatform.construct env).statusAssignments ∧
    (WhpxPlatform.construct env).initStatus ≠ PlatformInitStatus.Uninitialized := by
  obtain ⟨dn, lo, ver, hi, q1, q2, q3, q4⟩ := env
  simp only [WhpxPlatform.construct]
  cases dn <;> cases lo <;> cases h1 : q1.cap.HypervisorPresent <;>
    simp_all <;> split_ifs <;> simp_all

/-- C3: the constructor ends with status `Unavailable` exactly when the
dispatch object exists but `Load()` fails, or the hypervisor-presence
capability reads back the hypervisor as absent; being a total function, the
constructor returns normally in both cases. -/
theorem c3_unavailable_iff_backend_missing (env : WhpxEnv) :
    (WhpxPlatform.construct env).initStatus = PlatformInitStatus.Unavailable ↔
      env.dispatchNull = false ∧
        (env.loadOk = false ∨
          env.capHypervisorPresent.cap.HypervisorPresent = false) := by
  obtain ⟨dn, lo, ver, hi, q1, q2, q3, q4⟩ := env
  simp only [WhpxPlatform.construct]
  cases dn <;> cases lo <;> cases h1 : q1.cap.HypervisorPresent <;>
    simp_all <;> split_ifs <;> simp_all

/-- C4 counterexample: when the dispatch object exists but `Load()` returns
false, the constructor sets status `Unavailable` — not `Failed` as the claim
states (it does skip all capability probing). -/
theorem c4_load_failure_counterexample :
    (WhpxPlatform.construct envLoadFails).initStatus =
      PlatformInitStatus.Unavailable ∧
    (WhpxPlatform.construct envLoadFails).initStatus ≠
      PlatformInitStatus.Failed ∧
    (WhpxPlatform.construct envLoadFails).queries = [] := by
  decide

/-- C4 amended: if the static dispatch object is null the constructor sets
init status `Failed`; if it exists but `Load()` returns false the constructor
sets init status `Unavailable`; in both cases no capability query is
performed. -/
theorem c4_unloaded_dispatch_no_probing (env : WhpxEnv) :
    (env.dispatchNull = true →
      (WhpxPlatform.construct env).initStatus = PlatformInitStatus.Failed ∧
      (WhpxPlatform.construct env).queries = []) ∧
    (env.dispatchNull = false → env.loadOk = false →
      (WhpxPlatform.construct env).initStatus = PlatformInitStatus.Unavailable ∧
      (WhpxPlatform.construct env).queries = []) := by
  obtain ⟨dn, lo, ver, hi, q1, q2, q3, q4⟩ := env
  cases dn <;> cases lo <;> simp [WhpxPlatform.construct]

/-- C5: for every constructor run that completes probing, the published
`Features` are self-consistent: `exceptionExits` is non-empty only if
`extendedVMExits` includes Exception. -/
theorem c5_exception_exits_consistency (env : WhpxEnv)
    (h1 : (WhpxPlatform.construct env).completedProbing = true)
    (h2 : (WhpxPlatform.construct env).features.exceptionExits ≠ 0) :
    (WhpxPlatform.construct env).features.extendedVMExits.Exception = true := by
  obtain ⟨dn, lo, ver, hi, q1, q2, q3, q4⟩ := env
  simp only [WhpxPlatform.construct] at h1 h2 ⊢
  cases dn <;> cases lo <;> cases hp : q1.cap.HypervisorPresent <;>
    cases he : q3.cap.ExtendedVmExits.ExceptionExit <;> simp_all <;>
    split_ifs <;> simp_all

/-- C5 witness: a concrete completed run with a non-empty exception-exit
bitmap, at which the consistency theorem applies. -/
theorem c5_exception_exits_consistency_inst :
    (WhpxPlatform.construct envExceptionExits).features.extendedVMExits.Exception =
      true :=
  c5_exception_exits_consistency envExceptionExits (by decide) (by decide)

/-- C6: the claim says each of the six extended-exit flags of the
extended-exits capability adds its corresponding member to
`Features.extendedVMExits`. The code violates this: when the exception-exit
flag is set, the exception-bitmap query (line 119) overwrites the local
`WHV_CAPABILITY` union, and the TSC-access, APIC-SMI and hypercall checks
(lines 125–133) then read the overwritten union. Here the extended-exits
capability reports TSC-access, APIC-SMI and hypercall exits supported, yet
none of them is added because the bitmap query returned an all-zero union. -/
theorem c6_clobbered_capability_union :
    envExitFlagsThenClobber.capExtendedVmExits.hr = 0 ∧
    envExitFlagsThenClobber.capExtendedVmExits.cap.ExtendedVmExits.X64RdtscExit =
      true ∧
    envExitFlagsThenClobber.capExtendedVmExits.cap.ExtendedVmExits.X64ApicSmiExit =
      true ∧
    envExitFlagsThenClobber.capExtendedVmExits.cap.ExtendedVmExits.HypercallExit =
      true ∧
    (WhpxPlatform.construct envExitFlagsThenClobber).features.extendedVMExits =
      ⟨false, false, true, false, false, false⟩ := by
  decide

/-- C7: whenever the constructor reaches the feature-population step, the
extended-control-register set always contains CR8 and MXCSRMask, and contains
XCR0 exactly when the backend version is at least 10.0.17763.0. -/
theorem c7_xcr0_version_gate (env : WhpxEnv)
    (h : (WhpxPlatform.construct env).reachedFeaturePopulation = true) :
    (WhpxPlatform.construct env).features.extendedControlRegisters.CR8 = true ∧
    (WhpxPlatform.construct env).features.extendedControlRegisters.MXCSRMask =
      true ∧
    ((WhpxPlatform.construct env).features.extendedControlRegisters.XCR0 = true ↔
      VersionInfo.ge env.whpxVersion ⟨10, 0, 17763, 0⟩ = true) := by
  obtain ⟨dn, lo, ver, hi, q1, q2, q3, q4⟩ := env
  simp only [WhpxPlatform.construct] at h ⊢
  cases dn <;> cases lo <;> cases hp : q1.cap.HypervisorPresent <;>
    cases he : q3.cap.ExtendedVmExits.ExceptionExit <;> simp_all

/-- C7 witness: the version-gate theorem applied to a concrete run whose
backend version is exactly 10.0.17763.0. -/
theorem c7_xcr0_version_gate_inst :
    (WhpxPlatform.construct envAllOk).features.extendedControlRegisters.CR8 =
      true ∧
    (WhpxPlatform.construct envAllOk).features.extendedControlRegisters.MXCSRMask =
      true ∧
    ((WhpxPlatform.construct envAllOk).features.extendedControlRegisters.XCR0 =
        true ↔
      VersionInfo.ge envAllOk.whpxVersion ⟨10, 0, 17763, 0⟩ = true) :=
  c7_xcr0_version_gate envAllOk (by decide)

/-- C8: the destructor invokes `DestroyVMs` exactly when the init status is
OK, always releases the dispatch table, and any `DestroyVMs` action occurs
at a strictly earlier position than the dispatch-table release. -/
theorem c8_destructor_event_order (status : PlatformInitStatus) :
    (DtorEvent.DestroyVMs ∈ WhpxPlatform.destructorEvents status ↔
      status = PlatformInitStatus.OK) ∧
    DtorEvent.ReleaseDispatch ∈ WhpxPlatform.destructorEvents status ∧
    (∀ i j : Nat,
      (WhpxPlatform.destructorEvents status)[i]? = some DtorEvent.DestroyVMs →
      (WhpxPlatform.destructorEvents status)[j]? =
        some DtorEvent.ReleaseDispatch →
      i < j) := by
  cases status <;> refine ⟨by decide, by decide, ?_⟩ <;> intro i j hi hj <;>
    rcases i with _ | _ | i <;> rcases j with _ | _ | j <;>
      simp_all [WhpxPlatform.destructorEvents]

/-- C9: `CreateVMImpl` returns no VM when the freshly allocated VM's
`Initialize()` fails, and returns that VM when it succeeds. -/
theorem c9_create_vm_initialize_gate (specifications : VMSpecifications)
    (initializeOk : Bool) :
    (initializeOk = false →
      WhpxPlatform.CreateVMImpl specifications initializeOk = none) ∧
    (initializeOk = true →
      WhpxPlatform.CreateVMImpl specifications initializeOk =
        some ⟨specifications⟩) := by
  cases initializeOk <;> simp [WhpxPlatform.CreateVMImpl]

/-- C10: whenever the constructor reaches the feature-population step, the
seven listed boolean feature flags are set to true unconditionally, the
processor limits are the constants 64 and 128, and only `dirtyPageTracking`
and `partialUnmapping` come from the queried native features struct. -/
theorem c10_feature_population_constants (env : WhpxEnv)
    (h : (WhpxPlatform.construct env).reachedFeaturePopulation = true) :
    (WhpxPlatform.construct env).features.unrestrictedGuest = true ∧
    (WhpxPlatform.construct env).features.extendedPageTables = true ∧
    (WhpxPlatform.construct env).features.largeMemoryAllocation = true ∧
    (WhpxPlatform.construct env).features.customCPUIDs = true ∧
    (WhpxPlatform.construct env).features.partialDirtyBitmap = true ∧
    (WhpxPlatform.construct env).features.memoryAliasing = true ∧
    (WhpxPlatform.construct env).features.memoryUnmapping = true ∧
    (WhpxPlatform.construct env).features.maxProcessorsPerVM = 64 ∧
    (WhpxPlatform.construct env).features.maxProcessorsGlobal = 128 ∧
    (WhpxPlatform.construct env).features.dirtyPageTracking =
      env.capFeatures.cap.Features.DirtyPageTracking ∧
    (WhpxPlatform.construct env).features.partialUnmapping =
      env.capFeatures.cap.Features.PartialUnmap := by
  obtain ⟨dn, lo, ver, hi, q1, q2, q3, q4⟩ := env
  simp only [WhpxPlatform.construct] at h ⊢
  cases dn <;> cases lo <;> cases hp : q1.cap.HypervisorPresent <;>
    cases he : q3.cap.ExtendedVmExits.ExceptionExit <;> simp_all

/-- C10 witness: the feature-population theorem applied to a concrete run
that reaches the feature-population step. -/
theorem c10_feature_population_constants_inst :
    (WhpxPlatform.construct envAllOk).features.unrestrictedGuest = true ∧
    (WhpxPlatform.construct envAllOk).features.extendedPageTables = true ∧
    (WhpxPlatform.construct envAllOk).features.largeMemoryAllocation = true ∧
    (WhpxPlatform.construct envAllOk).features.customCPUIDs = true ∧
    (WhpxPlatform.construct envAllOk).features.partialDirtyBitmap = true ∧
    (WhpxPlatform.construct envAllOk).features.memoryAliasing = true ∧
    (WhpxPlatform.construct envAllOk).features.memoryUnmapping = true ∧
    (WhpxPlatform.construct envAllOk).features.maxProcessorsPerVM = 64 ∧
    (WhpxPlatform.construct envAllOk).features.maxProcessorsGlobal = 128 ∧
    (WhpxPlatform.construct envAllOk).features.dirtyPageTracking =
      envAllOk.capFeatures.cap.Features.DirtyPageTracking ∧
    (WhpxPlatform.construct envAllOk).features.partialUnmapping =
      envAllOk.capFeatures.cap.Features.PartialUnmap :=
  c10_feature_population_constants envAllOk (by decide)

end Virt86Whpx
